import Mathlib

/-!
# tempoCicloDMA: periodic task dispatch on the RP2040

A shallow embedding of `src/tempoCicloDMA/tempoCicloDMA.c`.

* The two globals `task1_flag` and `task_counter`, the GPIO output levels, the
  selected ADC input and the text written to the serial output form the
  machine state `State`.
* `uint32_t` arithmetic is arithmetic on `Nat` reduced modulo `2 ^ 32`.
* The value returned by `adc_read()` comes from the outside world and is an
  argument of every function that reaches it.
* The `float` arithmetic of `read_internal_temp` is carried out exactly, over
  `ℚ`, with the decimal literals of the source taken at their written value.
* Time is not modelled: `sleep_ms` changes nothing in the state.
-/

namespace TempoCicloDMA

/-! ## Constants and state -/

/-- GPIO number of the red LED (`#define LED_PIN_R 12`). -/
def LED_PIN_R : Nat := 12

/-- GPIO number of the green LED (`#define LED_PIN_G 13`). -/
def LED_PIN_G : Nat := 13

/-- GPIO number of the blue LED (`#define LED_PIN_B 14`). -/
def LED_PIN_B : Nat := 14

/-- Number of values of a `uint32_t`. -/
def UINT32_SIZE : Nat := 2 ^ 32

/-- One piece of text written by `printf`. The temperature line carries the
value that is substituted into `Temperatura: %.2f °C`. -/
inductive Line where
  | sistema_iniciado : Line
  | temperatura : ℚ → Line

/-- The machine state: the two globals of the program and the state of the
peripherals it writes to. -/
structure State where
  /-- The global `volatile bool task1_flag`. -/
  task1_flag : Bool
  /-- The global `uint32_t task_counter`. -/
  task_counter : Nat
  /-- Output level of every GPIO, by GPIO number. -/
  gpio : Nat → Bool
  /-- The ADC input chosen by the last `adc_select_input`. -/
  adc_input : Nat
  /-- Everything written to the serial output so far, oldest first. -/
  stdout : List Line

/-- The call `gpio_put(pin, value)`: drives one GPIO and leaves the others. -/
def gpio_put (pin : Nat) (value : Bool) (s : State) : State :=
  { s with gpio := fun p => if p = pin then value else s.gpio p }

/-- The call `adc_select_input(input)`. -/
def adc_select_input (input : Nat) (s : State) : State :=
  { s with adc_input := input }

/-- The call `printf` of one line. -/
def printf (l : Line) (s : State) : State :=
  { s with stdout := s.stdout ++ [l] }

/-! ## The functions of the program -/

/-- The constant `conversion_factor = 3.3f / (1 << 12)`. -/
def conversion_factor : ℚ := (33 / 10) / ((1 <<< 12 : Nat) : ℚ)

/-- The function `read_internal_temp`; `adc_read` is the raw sample that the
converter returns for this call. -/
def read_internal_temp (adc_read : Nat) (s : State) : ℚ × State :=
  let s := adc_select_input 4 s
  let raw : Nat := adc_read % 2 ^ 16
  let voltage : ℚ := (raw : ℚ) * conversion_factor
  let temperature : ℚ := 27 - (voltage - 706 / 1000) / (1721 / 1000000)
  (temperature, s)

/-- The function `repeating_timer_callback`: the returned `Bool` tells the
timer whether to stay armed. The argument `rt` is not used by the body and is
left out. -/
def repeating_timer_callback (s : State) : Bool × State :=
  let s := { s with task1_flag := true }
  let s := { s with task_counter := (s.task_counter + 1) % UINT32_SIZE }
  (true, s)

/-- The function `task1`. -/
def task1 (adc_read : Nat) (s : State) : State :=
  let (temp, s) := read_internal_temp adc_read s
  let s := printf (Line.temperatura temp) s
  { s with task1_flag := false }

/-- The function `task2`. The `switch` has no `default` branch. -/
def task2 (s : State) : State :=
  match s.task_counter % 3 with
  | 0 =>
    let s := gpio_put LED_PIN_R true s
    let s := gpio_put LED_PIN_G false s
    gpio_put LED_PIN_B false s
  | 1 =>
    let s := gpio_put LED_PIN_R false s
    let s := gpio_put LED_PIN_G true s
    gpio_put LED_PIN_B false s
  | 2 =>
    let s := gpio_put LED_PIN_R false s
    let s := gpio_put LED_PIN_G false s
    gpio_put LED_PIN_B true s
  | _ => s

/-- The condition of the `if` in `task3`. -/
def task3_guard (s : State) : Bool := s.task_counter % 5 == 0

/-- The function `task3`: the guarded block is empty. -/
def task3 (s : State) : State :=
  if task3_guard s then s else s

/-- The condition of the `if` in `task4`. -/
def task4_guard (s : State) : Bool := s.task_counter % 10 == 0

/-- The function `task4`: the guarded block is empty. -/
def task4 (s : State) : State :=
  if task4_guard s then s else s

/-- The function `init_rgb_leds`. Pin direction is not part of the state, so
`gpio_init` and `gpio_set_dir` leave it as it is. -/
def init_rgb_leds (s : State) : State :=
  let s := gpio_put LED_PIN_R false s
  let s := gpio_put LED_PIN_G false s
  gpio_put LED_PIN_B false s

/-- The state at program start: the globals hold their initialisers, nothing
has been written, every output is low. -/
def startup : State :=
  { task1_flag := false, task_counter := 0, gpio := fun _ => false,
    adc_input := 0, stdout := [] }

/-- The part of `main` before the loop. -/
def main_init : State :=
  let s := printf Line.sistema_iniciado startup
  init_rgb_leds s

/-! ## The main loop, with a record of the calls it makes -/

/-- The four tasks called from the main loop. -/
inductive Task where
  | task1 | task2 | task3 | task4
  deriving DecidableEq, Repr

/-- Runs one task. -/
def run_task (adc_read : Nat) : Task → State → State
  | Task.task1, s => task1 adc_read s
  | Task.task2, s => task2 s
  | Task.task3, s => task3 s
  | Task.task4, s => task4 s

/-- One call made by the main loop: which task, and the state it started in. -/
structure Call where
  task : Task
  entry : State

/-- Calls the given tasks one after the other, recording each call. -/
def call_all (adc_read : Nat) : List Task → State → List Call × State
  | [], s => ([], s)
  | t :: ts, s =>
    let r := call_all adc_read ts (run_task adc_read t s)
    (⟨t, s⟩ :: r.1, r.2)

/-- The call `sleep_ms(ms)`. -/
def sleep_ms (_ms : Nat) (s : State) : State := s

/-- One pass through the body of `while (true)` in `main`. The result is the
list of task calls made in this pass and the state at the end of the pass. -/
def loop_body (adc_read : Nat) (s : State) : List Call × State :=
  let r :=
    if s.task1_flag then
      call_all adc_read [Task.task1, Task.task2, Task.task3, Task.task4] s
    else ([], s)
  (r.1, sleep_ms 1000 r.2)

/-- One firing of the timer: the state after `repeating_timer_callback`. -/
def fire (s : State) : State := (repeating_timer_callback s).2

/-! ## Reading the LED outputs -/

/-- The three LED channels. -/
inductive Channel where
  | R | G | B
  deriving DecidableEq, Repr

/-- The GPIO of a channel. -/
def Channel.pin : Channel → Nat
  | Channel.R => LED_PIN_R
  | Channel.G => LED_PIN_G
  | Channel.B => LED_PIN_B

/-- The next channel in the cycle R, G, B, R. -/
def Channel.next : Channel → Channel
  | Channel.R => Channel.G
  | Channel.G => Channel.B
  | Channel.B => Channel.R

/-- The channels whose output is high, in the order R, G, B. -/
def high_channels (s : State) : List Channel :=
  [Channel.R, Channel.G, Channel.B].filter (fun ch => s.gpio ch.pin)

/-- One firing of the timer followed by one pass of the main loop: the state
at the end of the pass. -/
def fire_then_poll (adc_read : Nat) (s : State) : State :=
  (loop_body adc_read (fire s)).2

/-! ## Lemmas about the single functions -/

theorem conversion_factor_eq : conversion_factor = 33 / 40960 := by
  norm_num [conversion_factor, Nat.shiftLeft_eq]

/-- For a sample that fits in 16 bits, `read_internal_temp` computes
`27 - (raw * 3.3 / 4096 - 0.706) / 0.001721`. -/
theorem read_internal_temp_formula (raw : Nat) (s : State) (h : raw < 2 ^ 16) :
    (read_internal_temp raw s).1
      = 27 - ((raw : ℚ) * (33 / 10) / 4096 - 706 / 1000) / (1721 / 1000000) := by
  have hr : raw % 2 ^ 16 = raw := Nat.mod_eq_of_lt h
  simp only [read_internal_temp, hr, conversion_factor_eq]
  ring

theorem mod_three_cases (n : Nat) : n % 3 = 0 ∨ n % 3 = 1 ∨ n % 3 = 2 := by
  omega

/-- The level of every GPIO after `task2`. -/
theorem task2_gpio (s : State) (p : Nat) :
    (task2 s).gpio p =
      if p = LED_PIN_B then decide (s.task_counter % 3 = 2)
      else if p = LED_PIN_G then decide (s.task_counter % 3 = 1)
      else if p = LED_PIN_R then decide (s.task_counter % 3 = 0)
      else s.gpio p := by
  rcases mod_three_cases s.task_counter with h | h | h <;>
    simp [task2, h, gpio_put]

theorem task2_task_counter (s : State) : (task2 s).task_counter = s.task_counter := by
  rcases mod_three_cases s.task_counter with h | h | h <;>
    simp [task2, h, gpio_put]

theorem task2_task1_flag (s : State) : (task2 s).task1_flag = s.task1_flag := by
  rcases mod_three_cases s.task_counter with h | h | h <;>
    simp [task2, h, gpio_put]

theorem task3_eq (s : State) : task3 s = s := by
  simp [task3]

theorem task4_eq (s : State) : task4 s = s := by
  simp [task4]

theorem task1_task_counter (raw : Nat) (s : State) :
    (task1 raw s).task_counter = s.task_counter := rfl

theorem task1_task1_flag (raw : Nat) (s : State) :
    (task1 raw s).task1_flag = false := rfl

theorem task1_gpio (raw : Nat) (s : State) : (task1 raw s).gpio = s.gpio := rfl

/-- The channel that is high after `task2`. -/
theorem high_channels_task2 (s : State) :
    high_channels (task2 s) =
      [if s.task_counter % 3 = 0 then Channel.R
       else if s.task_counter % 3 = 1 then Channel.G else Channel.B] := by
  rcases mod_three_cases s.task_counter with h | h | h <;>
    simp [high_channels, task2_gpio, Channel.pin, LED_PIN_R, LED_PIN_G, LED_PIN_B, h]

theorem run_task_task_counter (raw : Nat) (t : Task) (s : State) :
    (run_task raw t s).task_counter = s.task_counter := by
  cases t
  · exact task1_task_counter raw s
  · exact task2_task_counter s
  · simp [run_task, task3_eq]
  · simp [run_task, task4_eq]

/-- No list of tasks changes `task_counter`, and every task in it starts with
the value the first one started with. -/
theorem call_all_task_counter (raw : Nat) (ts : List Task) (s : State) :
    (call_all raw ts s).2.task_counter = s.task_counter ∧
    ∀ c ∈ (call_all raw ts s).1, c.entry.task_counter = s.task_counter := by
  induction ts generalizing s with
  | nil => simp [call_all]
  | cons t ts ih =>
    have h := ih (run_task raw t s)
    rw [run_task_task_counter] at h
    refine ⟨h.1, ?_⟩
    intro c hc
    simp only [call_all, List.mem_cons] at hc
    rcases hc with rfl | hc
    · rfl
    · exact h.2 c hc

theorem fire_task_counter (s : State) :
    (fire s).task_counter = (s.task_counter + 1) % 2 ^ 32 := rfl

theorem fire_task1_flag (s : State) : (fire s).task1_flag = true := rfl

/-- The pass of the main loop that finds the flag set. -/
theorem loop_body_of_flag (raw : Nat) (s : State) (h : s.task1_flag = true) :
    loop_body raw s =
      ([⟨Task.task1, s⟩, ⟨Task.task2, task1 raw s⟩, ⟨Task.task3, task2 (task1 raw s)⟩,
        ⟨Task.task4, task2 (task1 raw s)⟩], task2 (task1 raw s)) := by
  simp [loop_body, h, call_all, run_task, sleep_ms, task3_eq, task4_eq]

/-- The pass of the main loop that finds the flag clear. -/
theorem loop_body_of_not_flag (raw : Nat) (s : State) (h : s.task1_flag = false) :
    loop_body raw s = ([], s) := by
  simp [loop_body, h, sleep_ms]

theorem fire_then_poll_eq (raw : Nat) (s : State) :
    fire_then_poll raw s = task2 (task1 raw (fire s)) := by
  unfold fire_then_poll
  rw [loop_body_of_flag raw (fire s) (fire_task1_flag s)]

theorem fire_then_poll_task_counter (raw : Nat) (s : State) :
    (fire_then_poll raw s).task_counter = (s.task_counter + 1) % 2 ^ 32 := by
  rw [fire_then_poll_eq, task2_task_counter, task1_task_counter, fire_task_counter]

/-- The channel that is high after a firing and a pass of the main loop. -/
theorem high_channels_fire_then_poll (raw : Nat) (s : State) :
    high_channels (fire_then_poll raw s) =
      [if (s.task_counter + 1) % 2 ^ 32 % 3 = 0 then Channel.R
       else if (s.task_counter + 1) % 2 ^ 32 % 3 = 1 then Channel.G else Channel.B] := by
  rw [fire_then_poll_eq, high_channels_task2, task1_task_counter, fire_task_counter]

/-! ## The claims -/

/-- C1: for every counter value, `task2` drives channel R high iff the counter
is 0 modulo 3, channel G high iff it is 1 modulo 3 and channel B high iff it is
2 modulo 3 (so the other two are low); exactly one of the three levels is
high; and the levels for a counter `n` are those for the counter `n % 3`. -/
theorem c1_task2_one_channel_by_mod_three (s : State) :
    ((task2 s).gpio LED_PIN_R = true ↔ s.task_counter % 3 = 0) ∧
    ((task2 s).gpio LED_PIN_G = true ↔ s.task_counter % 3 = 1) ∧
    ((task2 s).gpio LED_PIN_B = true ↔ s.task_counter % 3 = 2) ∧
    ([LED_PIN_R, LED_PIN_G, LED_PIN_B].map (task2 s).gpio).count true = 1 ∧
    (task2 s).gpio = (task2 { s with task_counter := s.task_counter % 3 }).gpio := by
  refine ⟨?_, ?_, ?_, ?_, ?_⟩
  · simp [task2_gpio, LED_PIN_R, LED_PIN_G, LED_PIN_B]
  · simp [task2_gpio, LED_PIN_R, LED_PIN_G, LED_PIN_B]
  · simp [task2_gpio, LED_PIN_R, LED_PIN_G, LED_PIN_B]
  · rcases mod_three_cases s.task_counter with h | h | h <;>
      simp [task2_gpio, LED_PIN_R, LED_PIN_G, LED_PIN_B, h]
  · funext p
    simp [task2_gpio]

/-- C2: one firing of `repeating_timer_callback` returns `true`, sets the
counter to `(counter + 1) % 2 ^ 32` and the flag to `true`, and changes nothing
else in the state. -/
theorem c2_callback_effect (s : State) :
    (repeating_timer_callback s).1 = true ∧
    (repeating_timer_callback s).2 =
      { s with task1_flag := true, task_counter := (s.task_counter + 1) % 2 ^ 32 } ∧
    (repeating_timer_callback s).2.gpio = s.gpio ∧
    (repeating_timer_callback s).2.adc_input = s.adc_input ∧
    (repeating_timer_callback s).2.stdout = s.stdout :=
  ⟨rfl, rfl, rfl, rfl, rfl⟩

/-- C3, as stated, fails: in the pass of the main loop that follows the first
firing of the timer the flag is set when the pass starts, yet it is not set
when `task2`, `task3` and `task4` start. -/
theorem c3_flag_clear_when_led_task_starts :
    (fire main_init).task1_flag = true ∧
    ¬ (∀ c ∈ (loop_body 876 (fire main_init)).1,
        c.task = Task.task2 ∨ c.task = Task.task3 ∨ c.task = Task.task4 →
          c.entry.task1_flag = true) := by
  decide

/-- C3, amended: a pass of the main loop that finds the flag set, with no
firing of the timer during the pass, calls `task1`, `task2`, `task3`, `task4`
in this order; the flag is set when `task1` starts, `task1` clears it, so it is
clear when `task2`, `task3` and `task4` start, and it is clear when the pass
ends. -/
theorem c3_batch_order_and_flag (adc_read : Nat) (s : State) (h : s.task1_flag = true) :
    (loop_body adc_read s).1.map (fun c => (c.task, c.entry.task1_flag))
      = [(Task.task1, true), (Task.task2, false), (Task.task3, false), (Task.task4, false)] ∧
    (loop_body adc_read s).2.task1_flag = false := by
  rw [loop_body_of_flag adc_read s h]
  simp [h, task2_task1_flag, task1_task1_flag]

theorem c3_batch_order_and_flag_witness :
    (fire main_init).task1_flag = true ∧
    (loop_body 876 (fire main_init)).1.map (fun c => (c.task, c.entry.task1_flag))
      = [(Task.task1, true), (Task.task2, false), (Task.task3, false), (Task.task4, false)] ∧
    (loop_body 876 (fire main_init)).2.task1_flag = false :=
  ⟨rfl, c3_batch_order_and_flag 876 (fire main_init) rfl⟩

/-- C4: from a state with counter `c` (whatever its flag, so in particular with
the flag clear), after two firings of the timer the counter is
`(c + 2) % 2 ^ 32`; the next pass of the main loop calls the four tasks once
each, every one of them (the LED task included) starting with the counter at
`(c + 2) % 2 ^ 32`, which differs from the intermediate `(c + 1) % 2 ^ 32`, and
the LED levels it leaves are those of `task2` for that counter; a second pass
with no firing in between calls no task and changes nothing. -/
theorem c4_two_firings_one_batch (adc_read adc_read2 : Nat) (s : State) :
    (fire (fire s)).task_counter = (s.task_counter + 2) % 2 ^ 32 ∧
    (loop_body adc_read (fire (fire s))).1.map Call.task
      = [Task.task1, Task.task2, Task.task3, Task.task4] ∧
    (∀ c ∈ (loop_body adc_read (fire (fire s))).1,
      c.entry.task_counter = (s.task_counter + 2) % 2 ^ 32) ∧
    (s.task_counter + 2) % 2 ^ 32 ≠ (s.task_counter + 1) % 2 ^ 32 ∧
    (loop_body adc_read (fire (fire s))).2.gpio
      = (task2 { s with task_counter := (s.task_counter + 2) % 2 ^ 32 }).gpio ∧
    (loop_body adc_read2 (loop_body adc_read (fire (fire s))).2).1 = [] ∧
    (loop_body adc_read2 (loop_body adc_read (fire (fire s))).2).2
      = (loop_body adc_read (fire (fire s))).2 := by
  have hc : (fire (fire s)).task_counter = (s.task_counter + 2) % 2 ^ 32 := by
    simp only [fire_task_counter]
    omega
  have hb := loop_body_of_flag adc_read (fire (fire s)) (fire_task1_flag _)
  have hk := (call_all_task_counter adc_read
    [Task.task1, Task.task2, Task.task3, Task.task4] (fire (fire s))).2
  have hend : (loop_body adc_read (fire (fire s))).2.task1_flag = false := by
    rw [hb]
    simp [task2_task1_flag, task1_task1_flag]
  refine ⟨hc, ?_, ?_, ?_, ?_, ?_, ?_⟩
  · rw [hb]
    rfl
  · intro c hcm
    rw [hk c hcm, hc]
  · omega
  · rw [hb]
    funext p
    simp only [task2_gpio, task1_task_counter, task1_gpio, hc]
    simp [fire, repeating_timer_callback]
  · rw [loop_body_of_not_flag _ _ hend]
  · rw [loop_body_of_not_flag _ _ hend]

/-- C5, as stated, fails: from the initial state, with one firing before each
pass of the main loop, the channels that are high after the first three
batches are not R, G, B. -/
theorem c5_first_three_batches_not_R_G_B :
    ¬ (high_channels (fire_then_poll 876 main_init) = [Channel.R] ∧
       high_channels (fire_then_poll 876 (fire_then_poll 876 main_init)) = [Channel.G] ∧
       high_channels
         (fire_then_poll 876 (fire_then_poll 876 (fire_then_poll 876 main_init)))
         = [Channel.B]) := by
  decide

/-- C5, amended: from the initial state, with one firing before each pass of
the main loop, each of the first three passes runs the batch, and the channel
that is high after the first batch is G, after the second B and after the
third R. -/
theorem c5_first_three_batches_G_B_R (r1 r2 r3 : Nat) :
    (loop_body r1 (fire main_init)).1.map Call.task
      = [Task.task1, Task.task2, Task.task3, Task.task4] ∧
    (loop_body r2 (fire (fire_then_poll r1 main_init))).1.map Call.task
      = [Task.task1, Task.task2, Task.task3, Task.task4] ∧
    (loop_body r3 (fire (fire_then_poll r2 (fire_then_poll r1 main_init)))).1.map Call.task
      = [Task.task1, Task.task2, Task.task3, Task.task4] ∧
    high_channels (fire_then_poll r1 main_init) = [Channel.G] ∧
    high_channels (fire_then_poll r2 (fire_then_poll r1 main_init)) = [Channel.B] ∧
    high_channels (fire_then_poll r3 (fire_then_poll r2 (fire_then_poll r1 main_init)))
      = [Channel.R] := by
  have h0 : main_init.task_counter = 0 := rfl
  have h1 := fire_then_poll_task_counter r1 main_init
  have h2 := fire_then_poll_task_counter r2 (fire_then_poll r1 main_init)
  rw [h0] at h1
  rw [h1] at h2
  refine ⟨rfl, ?_, ?_, ?_, ?_, ?_⟩
  · rw [loop_body_of_flag _ _ (fire_task1_flag _)]
    rfl
  · rw [loop_body_of_flag _ _ (fire_task1_flag _)]
    rfl
  · rw [high_channels_fire_then_poll, h0]
    norm_num
  · rw [high_channels_fire_then_poll, h1]
    norm_num
  · rw [high_channels_fire_then_poll, h2]
    norm_num

/-- C6, as stated, fails: for the sample 876 the computed temperature is more
than 0.01 away from 27. -/
theorem c6_sample_876_not_within_hundredth :
    ¬ (|(read_internal_temp 876 main_init).1 - 27| ≤ 1 / 100) := by
  rw [read_internal_temp_formula 876 main_init (by norm_num)]
  norm_num [abs_le]

/-- C6, amended: for the sample 876 the conversion
`27 - (raw * 3.3 / 4096 - 0.706) / 0.001721` gives a temperature between 27.138
and 27.139, hence within 0.14 of 27. -/
theorem c6_sample_876_within_fourteen_hundredths (s : State) :
    (read_internal_temp 876 s).1
      = 27 - ((876 : ℚ) * (33 / 10) / 4096 - 706 / 1000) / (1721 / 1000000) ∧
    27138 / 1000 < (read_internal_temp 876 s).1 ∧
    (read_internal_temp 876 s).1 < 27139 / 1000 ∧
    |(read_internal_temp 876 s).1 - 27| ≤ 14 / 100 := by
  have h := read_internal_temp_formula 876 s (by norm_num)
  simp only [Nat.cast_ofNat] at h
  rw [h]
  refine ⟨rfl, ?_, ?_, ?_⟩
  · norm_num
  · norm_num
  · rw [abs_le]
    constructor <;> norm_num

/-- C7: the conversion `27 - (raw * 3.3 / 4096 - 0.706) / 0.001721` computed by
`read_internal_temp` is strictly decreasing on the samples 0 to 4095: for
`a < b ≤ 4095` the temperature for `a` is above the temperature for `b`. -/
theorem c7_temperature_strictly_decreasing (a b : Nat) (s t : State)
    (hab : a < b) (hb : b ≤ 4095) :
    (read_internal_temp a s).1
      = 27 - ((a : ℚ) * (33 / 10) / 4096 - 706 / 1000) / (1721 / 1000000) ∧
    (read_internal_temp b t).1
      = 27 - ((b : ℚ) * (33 / 10) / 4096 - 706 / 1000) / (1721 / 1000000) ∧
    (read_internal_temp a s).1 > (read_internal_temp b t).1 := by
  have ha := read_internal_temp_formula a s (by omega)
  have hb2 := read_internal_temp_formula b t (by omega)
  refine ⟨ha, hb2, ?_⟩
  rw [ha, hb2]
  have h : (a : ℚ) < (b : ℚ) := by exact_mod_cast hab
  have h2 : ((a : ℚ) * (33 / 10) / 4096 - 706 / 1000) / (1721 / 1000000)
      < ((b : ℚ) * (33 / 10) / 4096 - 706 / 1000) / (1721 / 1000000) := by
    apply div_lt_div_of_pos_right _ (by norm_num)
    linarith
  linarith

theorem c7_temperature_strictly_decreasing_witness :
    (876 < 877 ∧ 877 ≤ 4095) ∧
    (read_internal_temp 876 main_init).1
      = 27 - (((876 : Nat) : ℚ) * (33 / 10) / 4096 - 706 / 1000) / (1721 / 1000000) ∧
    (read_internal_temp 877 main_init).1
      = 27 - (((877 : Nat) : ℚ) * (33 / 10) / 4096 - 706 / 1000) / (1721 / 1000000) ∧
    (read_internal_temp 876 main_init).1 > (read_internal_temp 877 main_init).1 :=
  ⟨by decide, c7_temperature_strictly_decreasing 876 877 main_init main_init
    (by decide) (by decide)⟩

/-- C8: the guard of `task3` holds iff the counter is a multiple of 5 and the
guard of `task4` holds iff it is a multiple of 10; the guard of `task3` holds
at 0, 5 and 10 and fails at 1 to 4 and 6 to 9. -/
theorem c8_placeholder_guards (s : State) :
    (task3_guard s = true ↔ 5 ∣ s.task_counter) ∧
    (task4_guard s = true ↔ 10 ∣ s.task_counter) ∧
    (∀ n ∈ [0, 5, 10], task3_guard { s with task_counter := n } = true) ∧
    (∀ n ∈ [1, 2, 3, 4, 6, 7, 8, 9], task3_guard { s with task_counter := n } = false) := by
  refine ⟨?_, ?_, ?_, ?_⟩
  · simp [task3_guard, Nat.dvd_iff_mod_eq_zero]
  · simp [task4_guard, Nat.dvd_iff_mod_eq_zero]
  · simp [task3_guard]
  · simp [task3_guard]

/-- C9: running `task1`, `task2`, `task3`, `task4` in sequence leaves
`task_counter` as it was, and each of the four tasks starts with the value the
counter had at the start of the batch; the same holds for a whole pass of the
main loop. -/
theorem c9_batch_keeps_counter (adc_read : Nat) (s : State) :
    (call_all adc_read [Task.task1, Task.task2, Task.task3, Task.task4] s).1.map Call.task
      = [Task.task1, Task.task2, Task.task3, Task.task4] ∧
    (call_all adc_read [Task.task1, Task.task2, Task.task3, Task.task4] s).2.task_counter
      = s.task_counter ∧
    (∀ c ∈ (call_all adc_read [Task.task1, Task.task2, Task.task3, Task.task4] s).1,
      c.entry.task_counter = s.task_counter) ∧
    (loop_body adc_read s).2.task_counter = s.task_counter ∧
    (∀ c ∈ (loop_body adc_read s).1, c.entry.task_counter = s.task_counter) := by
  have h := call_all_task_counter adc_read [Task.task1, Task.task2, Task.task3, Task.task4] s
  refine ⟨rfl, h.1, h.2, ?_, ?_⟩
  · cases hf : s.task1_flag
    · rw [loop_body_of_not_flag adc_read s hf]
    · simp only [loop_body, hf, sleep_ms, if_true]
      exact h.1
  · cases hf : s.task1_flag
    · rw [loop_body_of_not_flag adc_read s hf]
      simp
    · simp only [loop_body, hf, if_true]
      exact h.2

/-- C10: for a 32-bit counter other than `2 ^ 32 - 1`, the channel `task2`
drives high after one more firing of the timer is the successor, in the cycle
R, G, B, R, of the channel it drives high before the firing; for the counter
`2 ^ 32 - 1` the firing takes the counter to 0 and `task2` drives R high both
before and after it, which is not a step of the cycle. -/
theorem c10_cycle_broken_exactly_at_wrap (s : State) (h : s.task_counter < 2 ^ 32) :
    (s.task_counter ≠ 2 ^ 32 - 1 →
      ∃ ch, high_channels (task2 s) = [ch] ∧
        high_channels (task2 (fire s)) = [ch.next]) ∧
    (s.task_counter = 2 ^ 32 - 1 →
      (fire s).task_counter = 0 ∧
      high_channels (task2 s) = [Channel.R] ∧
      high_channels (task2 (fire s)) = [Channel.R] ∧
      Channel.R.next ≠ Channel.R) := by
  constructor
  · intro hne
    have hf : (fire s).task_counter = s.task_counter + 1 := by
      rw [fire_task_counter]
      exact Nat.mod_eq_of_lt (by omega)
    refine ⟨_, high_channels_task2 s, ?_⟩
    rw [high_channels_task2, hf]
    rcases mod_three_cases s.task_counter with h3 | h3 | h3
    · have h4 : (s.task_counter + 1) % 3 = 1 := by omega
      simp [h3, h4, Channel.next]
    · have h4 : (s.task_counter + 1) % 3 = 2 := by omega
      simp [h3, h4, Channel.next]
    · have h4 : (s.task_counter + 1) % 3 = 0 := by omega
      simp [h3, h4, Channel.next]
  · intro he
    have hf : (fire s).task_counter = 0 := by
      rw [fire_task_counter, he]
      norm_num
    refine ⟨hf, ?_, ?_, by decide⟩
    · rw [high_channels_task2, he]
      norm_num
    · rw [high_channels_task2, hf]
      simp

theorem c10_cycle_broken_exactly_at_wrap_witness :
    ({ main_init with task_counter := 4294967295 } : State).task_counter < 2 ^ 32 ∧
    (({ main_init with task_counter := 4294967295 } : State).task_counter ≠ 2 ^ 32 - 1 →
      ∃ ch, high_channels (task2 { main_init with task_counter := 4294967295 }) = [ch] ∧
        high_channels (task2 (fire { main_init with task_counter := 4294967295 }))
          = [ch.next]) ∧
    (({ main_init with task_counter := 4294967295 } : State).task_counter = 2 ^ 32 - 1 →
      (fire { main_init with task_counter := 4294967295 }).task_counter = 0 ∧
      high_channels (task2 { main_init with task_counter := 4294967295 }) = [Channel.R] ∧
      high_channels (task2 (fire { main_init with task_counter := 4294967295 }))
        = [Channel.R] ∧
      Channel.R.next ≠ Channel.R) :=
  ⟨by decide, c10_cycle_broken_exactly_at_wrap { main_init with task_counter := 4294967295 }
    (by decide)⟩

end TempoCicloDMA

